import Mathlib

/-!
Shallow embedding of the X300 streaming control-plane core
(`host/lib/usrp/x300/x300_io_impl.cpp`) and proofs about it.

Machine doubles are modelled by `Rat`: every rate, sample-rate and
scale-factor value in the excerpt is only stored and copied, never the
result of floating-point arithmetic, so an exact numeric carrier is
faithful.  Weak pointers (`boost::weak_ptr`, resolved by `.lock()`)
are modelled by `Option`: `none` is an expired reference.  The
registries `_rx_streamers` / `_tx_streamers` (`uhd::dict`) are
association lists keyed by the block-id string.  Hardware side effects
(mux programming, mapping persistence, DAC synchronization) are both
applied to the state and appended to an event log, so that claims
about which calls were made, and in which order, are expressible.
-/

/-- Association-list lookup of the first binding of `k` (mirrors
`uhd::dict::operator[]` / `has_key`, which scan the underlying list). -/
def dict_get (l : List (String × α)) (k : String) : Option α :=
  match l with
  | [] => none
  | (k', v) :: rest => if k' == k then some v else dict_get rest k

/-- Does the dict have a binding for `k`? (`uhd::dict::has_key`) -/
def dict_has_key (l : List (String × α)) (k : String) : Bool :=
  (dict_get l k).isSome

/-- Apply `f` to the first binding of `k`, leave everything else alone
(mirrors in-place mutation through the reference `operator[]` returns). -/
def dict_update (k : String) (f : α → α) : List (String × α) → List (String × α)
  | [] => []
  | (k', v) :: rest =>
    if k' == k then (k', f v) :: rest else (k', v) :: dict_update k f rest

/-- Replace the first binding of `k` by `v`, or append a new binding
(mirrors `dict[k] = v` on `uhd::device_addr_t`). -/
def dict_set (k : String) (v : α) : List (String × α) → List (String × α)
  | [] => [(k, v)]
  | (k', v') :: rest =>
    if k' == k then (k', v) :: rest else (k', v') :: dict_set k v rest

/-- Apply `f` to the element at position `n`; out-of-range is a no-op
(total model of unchecked C++ array indexing at indices the claims
always keep in range). -/
def modN (f : α → α) : Nat → List α → List α
  | _, [] => []
  | 0, x :: xs => f x :: xs
  | n + 1, x :: xs => x :: modN f n xs

/-- `a / b` on `uhd::fs_path`: path concatenation with a slash. -/
def fsj (a b : String) : String := a ++ "/" ++ b

/-- `uhd::device_addr_t`: a string-to-string dictionary. -/
abbrev device_addr_t := List (String × String)

/-- The error kinds of `uhd::exception` raised by the excerpt. -/
inductive uhd_error where
  /-- `uhd::assertion_error`, thrown by `UHD_ASSERT_THROW`. -/
  | assertion_error
  /-- The configuration error raised by the `validate_subdev_spec` check. -/
  | value_error
  /-- `uhd::lookup_error`: a property-tree access to a missing path. -/
  | lookup_error
  /-- `uhd::io_error` with its message, as thrown by `synchronize_dacs`
  and rethrown by `post_streamer_hooks`. -/
  | io_error (msg : String)
deriving DecidableEq

/-- One entry of a `uhd::usrp::subdev_spec_t`. -/
structure subdev_spec_pair_t where
  db_name : String
  sd_name : String
deriving DecidableEq, Inhabited

/-- `uhd::usrp::subdev_spec_t`: an ordered list of subdevice entries. -/
abbrev subdev_spec_t := List subdev_spec_pair_t

/-- DDC control surface: last programmed mux setting (`set_mux(conn,
fe_swapped)`) and the current scaling adjustment. -/
structure ddc_core where
  mux : Option (String × Bool)
  scaling_adjustment : Rat
deriving DecidableEq

instance : Inhabited ddc_core := ⟨⟨none, 0⟩⟩

/-- DUC control surface: the current scaling adjustment. -/
structure duc_core where
  scaling_adjustment : Rat
deriving DecidableEq

instance : Inhabited duc_core := ⟨⟨0⟩⟩

/-- RX analog front-end: last programmed swap flag (`set_mux(fe_swapped)`). -/
structure rx_fe_core where
  mux : Option Bool
deriving DecidableEq, Inhabited

/-- TX analog front-end: last programmed connection string (`set_mux(conn)`). -/
structure tx_fe_core where
  mux : Option String
deriving DecidableEq, Inhabited

/-- `x300_impl::radio_perifs_t`: the per-channel radio resources the
excerpt touches. -/
structure radio_perifs_t where
  ddc : ddc_core
  duc : duc_core
  rx_fe : rx_fe_core
  tx_fe : tx_fe_core
deriving DecidableEq, Inhabited

/-- `x300_impl::mboard_members_t`: the per-motherboard fields the excerpt
reads.  `get_radio_index` resolves a daughterboard name to a physical
radio index; its definition lives outside the excerpt, so it is kept as
an abstract function field. -/
structure mboard_members_t where
  radio_perifs : List radio_perifs_t
  get_radio_index : String → Nat
  recv_args : device_addr_t
  send_args : device_addr_t
  xport_path : String
deriving Inhabited

/-- An RX streaming endpoint (`sph::recv_packet_streamer`): the settable
tick rate, sample rate and scale factor, plus the current values its
terminator reports (`get_terminator()->get_tick_rate()` /
`get_output_samp_rate()`). -/
structure recv_packet_streamer where
  term_tick_rate : Rat
  term_samp_rate : Rat
  tick_rate : Rat
  samp_rate : Rat
  scale_factor : Rat
deriving DecidableEq

instance : Inhabited recv_packet_streamer := ⟨⟨0, 0, 0, 0, 0⟩⟩

/-- A TX streaming endpoint (`sph::send_packet_streamer`): settable
rates and scale factor, plus the `(device_no, block_count)` identities
of the radio-control blocks its terminator's
`find_downstream_node<radio_ctrl>()` traversal returns. -/
structure send_packet_streamer where
  tick_rate : Rat
  samp_rate : Rat
  scale_factor : Rat
  downstream_radios : List (Nat × Nat)
deriving DecidableEq

instance : Inhabited send_packet_streamer := ⟨⟨0, 0, 0, []⟩⟩

/-- The property tree (`uhd::property_tree`) restricted to the paths the
excerpt touches: string-valued properties (frontend connection strings)
and `std::vector<size_t>`-valued properties (channel/DSP mappings). -/
structure prop_tree where
  strs : List (String × String)
  vecs : List (String × List Nat)
deriving DecidableEq, Inhabited

/-- Read a string property; `none` models the `uhd::lookup_error` the
tree throws for a missing path. -/
def prop_tree.getStr (t : prop_tree) (path : String) : Option String :=
  dict_get t.strs path

/-- Read a vector property. -/
def prop_tree.getVec (t : prop_tree) (path : String) : Option (List Nat) :=
  dict_get t.vecs path

/-- Write a vector property. -/
def prop_tree.setVec (t : prop_tree) (path : String) (v : List Nat) : prop_tree :=
  { t with vecs := dict_set path v t.vecs }

/-- An externally visible hardware call made by the excerpt, recorded in
program order. -/
inductive io_event where
  /-- `radio_perifs[dsp].ddc->set_mux(conn, fe_swapped)` on motherboard `mb`. -/
  | ddc_set_mux (mb dsp : Nat) (conn : String) (fe_swapped : Bool)
  /-- `radio_perifs[dsp].rx_fe->set_mux(fe_swapped)` on motherboard `mb`. -/
  | rx_fe_set_mux (mb dsp : Nat) (fe_swapped : Bool)
  /-- `radio_perifs[dsp].tx_fe->set_mux(conn)` on motherboard `mb`. -/
  | tx_fe_set_mux (mb dsp : Nat) (conn : String)
  /-- `_tree->access<std::vector<size_t>>(path).set(mapping)`. -/
  | persist_mapping (path : String) (mapping : List Nat)
  /-- `synchronize_dacs(radios)` with the group of `(motherboard, radio)`
  identities of the `radio_perifs_t` references passed. -/
  | sync_dacs (radios : List (Nat × Nat))
deriving DecidableEq

/-- The `x300_impl` state the excerpt reads and writes: motherboards
(`_mb`), the two streamer registries, the property tree, and the log of
hardware calls made so far. -/
structure x300_impl_state where
  mbs : List mboard_members_t
  rx_streamers : List (String × Option recv_packet_streamer)
  tx_streamers : List (String × Option send_packet_streamer)
  tree : prop_tree
  log : List io_event
deriving Inhabited

/-! ## State helpers: in-place mutation of one radio peripheral -/

/-- Apply `f` to `_mb[mb].radio_perifs[dsp]`, leaving everything else
unchanged. -/
def x300_impl_state.modify_perif (st : x300_impl_state) (mb dsp : Nat)
    (f : radio_perifs_t → radio_perifs_t) : x300_impl_state :=
  { st with
    mbs := modN (fun m => { m with radio_perifs := modN f dsp m.radio_perifs }) mb st.mbs }

/-- `_mb[mb].radio_perifs[dsp].ddc->set_mux(conn, fe_swapped)`. -/
def x300_impl_state.ddc_set_mux (st : x300_impl_state) (mb dsp : Nat)
    (conn : String) (fe_swapped : Bool) : x300_impl_state :=
  let st' := st.modify_perif mb dsp
    (fun p => { p with ddc := { p.ddc with mux := some (conn, fe_swapped) } })
  { st' with log := st.log ++ [io_event.ddc_set_mux mb dsp conn fe_swapped] }

/-- `_mb[mb].radio_perifs[dsp].rx_fe->set_mux(fe_swapped)`. -/
def x300_impl_state.rx_fe_set_mux (st : x300_impl_state) (mb dsp : Nat)
    (fe_swapped : Bool) : x300_impl_state :=
  let st' := st.modify_perif mb dsp
    (fun p => { p with rx_fe := { mux := some fe_swapped } })
  { st' with log := st.log ++ [io_event.rx_fe_set_mux mb dsp fe_swapped] }

/-- `_mb[mb].radio_perifs[dsp].tx_fe->set_mux(conn)`. -/
def x300_impl_state.tx_fe_set_mux (st : x300_impl_state) (mb dsp : Nat)
    (conn : String) : x300_impl_state :=
  let st' := st.modify_perif mb dsp
    (fun p => { p with tx_fe := { mux := some conn } })
  { st' with log := st.log ++ [io_event.tx_fe_set_mux mb dsp conn] }

/-- `_tree->access<std::vector<size_t>>(path).set(mapping)`. -/
def x300_impl_state.persist_mapping (st : x300_impl_state) (path : String)
    (mapping : List Nat) : x300_impl_state :=
  { st with
    tree := st.tree.setVec path mapping
    log := st.log ++ [io_event.persist_mapping path mapping] }

/-! ## update_tick_rate -/

/-- The RX branch of `update_tick_rate` applied to one `.lock()` result:
read the terminator's current tick rate and output sample rate and
re-apply them to the streamer; an expired reference is skipped. -/
def rx_refresh : Option recv_packet_streamer → Option recv_packet_streamer
  | none => none
  | some s => some { s with tick_rate := s.term_tick_rate, samp_rate := s.term_samp_rate }

/-- `x300_impl::update_tick_rate(mb_index, rate)`.  `devno` models
`rfnoc::block_id_t(block_id).get_device_no()` — the parse of the
motherboard number out of the registry key, defined outside the
excerpt, so kept abstract.  RX streamers of this motherboard are
refreshed in place from their terminator's current values; TX streamers
of this motherboard get `rate` as both tick rate and sample rate;
everything else (other motherboards, expired references) is untouched. -/
def update_tick_rate (devno : String → Nat) (st : x300_impl_state)
    (mb_index : Nat) (rate : Rat) : x300_impl_state :=
  { st with
    rx_streamers := st.rx_streamers.map (fun p =>
      if devno p.1 == mb_index then (p.1, rx_refresh p.2) else p)
    tx_streamers := st.tx_streamers.map (fun p =>
      if devno p.1 == mb_index then
        (p.1, p.2.map (fun s => { s with tick_rate := rate, samp_rate := rate }))
      else p) }

/-! ## update_rx_samp_rate / update_tx_samp_rate -/

/-- `x300_impl::update_rx_samp_rate(mb, dspno, rate)`: look up the RX
streamer registered under `"Radio_<dspno>"` (note: the key does not
involve the motherboard — the source marks this with a FIXME); if the
key is absent or the weak reference is expired, do nothing; otherwise
set the streamer's sample rate to `rate` and its scale factor to the
DDC scaling adjustment read from `mb.radio_perifs[dspno]` now. -/
def update_rx_samp_rate (st : x300_impl_state) (mb : mboard_members_t)
    (dspno : Nat) (rate : Rat) : x300_impl_state :=
  let radio_block_id := "Radio_" ++ toString dspno
  match dict_get st.rx_streamers radio_block_id with
  | none => st
  | some none => st
  | some (some s) =>
    let adj := (mb.radio_perifs.getD dspno default).ddc.scaling_adjustment
    { st with
      rx_streamers := dict_update radio_block_id
        (fun _ => some { s with samp_rate := rate, scale_factor := adj })
        st.rx_streamers }

/-- `x300_impl::update_tx_samp_rate(mb, dspno, rate)`: symmetric to the
RX case, with the TX registry and the DUC scaling adjustment. -/
def update_tx_samp_rate (st : x300_impl_state) (mb : mboard_members_t)
    (dspno : Nat) (rate : Rat) : x300_impl_state :=
  let radio_block_id := "Radio_" ++ toString dspno
  match dict_get st.tx_streamers radio_block_id with
  | none => st
  | some none => st
  | some (some s) =>
    let adj := (mb.radio_perifs.getD dspno default).duc.scaling_adjustment
    { st with
      tx_streamers := dict_update radio_block_id
        (fun _ => some { s with samp_rate := rate, scale_factor := adj })
        st.tx_streamers }

/-! ## update_subdev_spec -/

/-- The property-tree path of the frontend connection string for one
spec entry: `mb_root / "dboards" / db_name / (tx_rx + "_frontends") /
sd_name / "connection"`. -/
def connPath (mb_name tx_rx : String) (e : subdev_spec_pair_t) : String :=
  fsj (fsj (fsj (fsj (fsj ("/mboards/" ++ mb_name) "dboards") e.db_name)
    (tx_rx ++ "_frontends")) e.sd_name) "connection"

/-- Modelled from the spec: `validate_subdev_spec` is declared in
`validate_subdev_spec.hpp` and its definition is not part of this
excerpt.  Per §4.3 step 2 it is the hardware-compatibility check
"confirming every named daughterboard/subdevice pair actually exists
and is wired for `direction` on this motherboard"; we model "exists and
is wired for the direction" as the presence of the pair's frontend
connection entry in the configuration tree, and a failure as the
spec's `ConfigurationError`. -/
def validate_subdev_spec (tree : prop_tree) (spec : subdev_spec_t)
    (tx_rx mb_name : String) : Option uhd_error :=
  if spec.all (fun e => (tree.getStr (connPath mb_name tx_rx e)).isSome)
  then none
  else some uhd_error.value_error

/-- The chained `UHD_ASSERT_THROW`s on the spec's shape
(`x300_io_impl.cpp` lines 117–125): a single entry must name
daughterboard "A" or "B"; two entries must name "A","B" or "B","A". -/
def spec_shape_ok (spec : subdev_spec_t) : Bool :=
  if spec.length == 1 then
    (spec.getD 0 default).db_name == "A" || (spec.getD 0 default).db_name == "B"
  else if spec.length == 2 then
    ((spec.getD 0 default).db_name == "A" && (spec.getD 1 default).db_name == "B") ||
    ((spec.getD 0 default).db_name == "B" && (spec.getD 1 default).db_name == "A")
  else true

/-- The mux-programming loop of `update_subdev_spec` (lines 129–147):
for each entry resolve the radio index, read the connection string from
the tree (a missing path throws `uhd::lookup_error`, keeping the state
mutated so far), then program the TX front-end mux, or the DDC mux and
RX front-end swap flag.  Returns the final state, the accumulated
`chan_to_dsp_map`, and the error if one was thrown. -/
def subdev_mux_loop (tx_rx mb_name : String) (mb_i : Nat)
    (st : x300_impl_state) :
    subdev_spec_t → x300_impl_state × List Nat × Option uhd_error
  | [] => (st, [], none)
  | e :: rest =>
    let radio_idx := (st.mbs.getD mb_i default).get_radio_index e.db_name
    match st.tree.getStr (connPath mb_name tx_rx e) with
    | none => (st, [radio_idx], some uhd_error.lookup_error)
    | some conn =>
      let st' :=
        if tx_rx == "tx" then
          st.tx_fe_set_mux mb_i radio_idx conn
        else
          let fe_swapped := conn == "QI" || conn == "Q"
          (st.ddc_set_mux mb_i radio_idx conn fe_swapped).rx_fe_set_mux
            mb_i radio_idx fe_swapped
      let r := subdev_mux_loop tx_rx mb_name mb_i st' rest
      (r.1, radio_idx :: r.2.1, r.2.2)

/-- `x300_impl::update_subdev_spec(tx_rx, mb_i, spec)`.  Returns the
state after the call together with the error thrown, if any; an
exception thrown mid-loop leaves the mutations already made (no
rollback), while a validation failure leaves the state untouched. -/
def update_subdev_spec (st : x300_impl_state) (tx_rx : String) (mb_i : Nat)
    (spec : subdev_spec_t) : x300_impl_state × Option uhd_error :=
  if tx_rx == "tx" || tx_rx == "rx" then
    if mb_i < st.mbs.length then
      let mb_name := toString mb_i
      let mb_root := "/mboards/" ++ mb_name
      match validate_subdev_spec st.tree spec tx_rx mb_name with
      | some e => (st, some e)
      | none =>
        if spec.length ≤ 2 then
          if spec_shape_ok spec then
            let r := subdev_mux_loop tx_rx mb_name mb_i st spec
            match r.2.2 with
            | some e => (r.1, some e)
            | none =>
              (r.1.persist_mapping (fsj mb_root (tx_rx ++ "_chan_dsp_mapping")) r.2.1,
               none)
          else (st, some uhd_error.assertion_error)
        else (st, some uhd_error.assertion_error)
    else (st, some uhd_error.assertion_error)
  else (st, some uhd_error.assertion_error)

/-! ## get_rx_hints / get_tx_hints -/

/-- The host platforms distinguished by the conditional compilation in
`get_rx_hints` (`UHD_PLATFORM_MACOS` / `_BSD` / `_LINUX` / `_WIN32`). -/
inductive uhd_platform where
  | macos
  | bsd
  | linux_host
  | win32
deriving DecidableEq

/-- `x300_impl::get_rx_hints(mb_index)`: the motherboard's stored
`recv_args`, with a default `recv_buff_size` injected when none is set
and the transport path is not `"nirio"`.  The numeric defaults
(`X300_RX_SW_BUFF_SIZE_ETH_MACOS` for macOS/BSD,
`X300_RX_SW_BUFF_SIZE_ETH` for Linux/Windows) are constants defined
outside the excerpt, so they are passed in as `sz_macos` / `sz_eth`. -/
def get_rx_hints (platform : uhd_platform) (sz_macos sz_eth : String)
    (st : x300_impl_state) (mb_index : Nat) : device_addr_t :=
  let rx_hints := (st.mbs.getD mb_index default).recv_args
  if !(dict_has_key rx_hints "recv_buff_size") then
    if (st.mbs.getD mb_index default).xport_path ≠ "nirio" then
      dict_set "recv_buff_size"
        (match platform with
          | uhd_platform.macos => sz_macos
          | uhd_platform.bsd => sz_macos
          | uhd_platform.linux_host => sz_eth
          | uhd_platform.win32 => sz_eth)
        rx_hints
    else rx_hints
  else rx_hints

/-- `x300_impl::get_tx_hints(mb_index)`: the stored `send_args`,
unmodified. -/
def get_tx_hints (st : x300_impl_state) (mb_index : Nat) : device_addr_t :=
  (st.mbs.getD mb_index default).send_args

/-! ## post_streamer_hooks -/

/-- The body of `post_streamer_hooks`'s loop over `_tx_streamers.vals()`.
`sync_err` models the external `synchronize_dacs` primitive: `none` is
success, `some msg` is a `uhd::io_error` carrying `msg`.  An expired
reference is skipped; for a live streamer the group of downstream
radio-control blocks is gathered and `synchronize_dacs` is invoked once
with the whole group (recorded in the log); on failure the error is
rethrown as `uhd::io_error("Failed to sync DACs! <msg> ")`, which
aborts the loop. -/
def post_streamer_loop (sync_err : List (Nat × Nat) → Option String)
    (st : x300_impl_state) :
    List (String × Option send_packet_streamer) →
      x300_impl_state × Option uhd_error
  | [] => (st, none)
  | (_, none) :: rest => post_streamer_loop sync_err st rest
  | (_, some s) :: rest =>
    let radios := s.downstream_radios
    let st' := { st with log := st.log ++ [io_event.sync_dacs radios] }
    match sync_err radios with
    | none => post_streamer_loop sync_err st' rest
    | some msg =>
      (st', some (uhd_error.io_error ("Failed to sync DACs! " ++ msg ++ " ")))

/-- `x300_impl::post_streamer_hooks(is_tx)`: a no-op for RX; for TX,
run the DAC-sync dispatch loop over the TX streamer registry. -/
def post_streamer_hooks (sync_err : List (Nat × Nat) → Option String)
    (st : x300_impl_state) (is_tx : Bool) : x300_impl_state × Option uhd_error :=
  if is_tx then post_streamer_loop sync_err st st.tx_streamers
  else (st, none)

/-! ## Library lemmas about the dictionary and list helpers -/

theorem dict_get_update_self (k : String) (f : α → α) (l : List (String × α)) :
    dict_get (dict_update k f l) k = (dict_get l k).map f := by
  induction l with
  | nil => rfl
  | cons p rest ih =>
    obtain ⟨k', v⟩ := p
    by_cases h : k' == k
    · simp [dict_update, dict_get, h]
    · simp only [dict_update, dict_get, h, Bool.false_eq_true, if_false, ih]

theorem dict_get_update_ne (k k' : String) (f : α → α) (l : List (String × α))
    (h : k' ≠ k) :
    dict_get (dict_update k f l) k' = dict_get l k' := by
  induction l with
  | nil => rfl
  | cons p rest ih =>
    obtain ⟨k₀, v⟩ := p
    by_cases h0 : k₀ == k
    · have hk : k₀ = k := by simpa using h0
      have : (k₀ == k') = false := by
        simp [hk]
        exact fun hc => h hc.symm
      simp [dict_update, dict_get, h0, this]
    · simp only [dict_update, dict_get, h0, Bool.false_eq_true, if_false, ih]

theorem dict_get_set_self (k : String) (v : α) (l : List (String × α)) :
    dict_get (dict_set k v l) k = some v := by
  induction l with
  | nil => simp [dict_set, dict_get]
  | cons p rest ih =>
    obtain ⟨k₀, v₀⟩ := p
    by_cases h0 : k₀ == k
    · simp [dict_set, dict_get, h0]
    · simp only [dict_set, dict_get, h0, Bool.false_eq_true, if_false, ih]

theorem dict_get_set_ne (k k' : String) (v : α) (l : List (String × α))
    (h : k' ≠ k) :
    dict_get (dict_set k v l) k' = dict_get l k' := by
  induction l with
  | nil =>
    have : (k == k') = false := by
      simp
      exact fun hc => h hc.symm
    simp [dict_set, dict_get, this]
  | cons p rest ih =>
    obtain ⟨k₀, v₀⟩ := p
    by_cases h0 : k₀ == k
    · have hk : k₀ = k := by simpa using h0
      have : (k₀ == k') = false := by
        simp [hk]
        exact fun hc => h hc.symm
      simp [dict_set, dict_get, h0, this]
    · simp only [dict_set, dict_get, h0, Bool.false_eq_true, if_false, ih]

theorem modN_length (f : α → α) (n : Nat) (l : List α) :
    (modN f n l).length = l.length := by
  induction l generalizing n with
  | nil => cases n <;> rfl
  | cons x xs ih =>
    cases n with
    | zero => rfl
    | succ m => simp [modN, ih]

theorem modN_getD (f : α → α) (n k : Nat) (l : List α) (d : α) :
    (modN f n l).getD k d =
      if n = k ∧ k < l.length then f (l.getD k d) else l.getD k d := by
  induction l generalizing n k with
  | nil => simp [modN]
  | cons x xs ih =>
    cases n with
    | zero =>
      cases k with
      | zero => simp [modN]
      | succ j => simp [modN, Nat.succ_ne_zero]
    | succ m =>
      cases k with
      | zero => simp [modN]
      | succ j =>
        simp only [modN, List.getD_cons_succ, ih, List.length_cons]
        by_cases hmj : m = j
        · simp [hmj, Nat.succ_lt_succ_iff]
        · have : ¬ (m + 1 = j + 1) := by omega
          simp [hmj, this]

/-! ## C2 and C8: update_tick_rate -/

/-- **C2.** For every `update_tick_rate(mb_index, rate)` call: every RX
streamer registered under a key of motherboard `mb_index` whose weak
reference resolves is refreshed in place — its tick rate and sample
rate are set to the *current* values its own terminator reports, not to
`rate`; every such TX streamer instead gets `rate` as both its tick
rate and its sample rate. -/
theorem update_tick_rate_rx_refresh_tx_apply (devno : String → Nat)
    (st : x300_impl_state) (mb_index : Nat) (rate : Rat) :
    (∀ bid s, (bid, some s) ∈ st.rx_streamers → devno bid = mb_index →
      (bid, some { s with tick_rate := s.term_tick_rate, samp_rate := s.term_samp_rate })
        ∈ (update_tick_rate devno st mb_index rate).rx_streamers) ∧
    (∀ bid s, (bid, some s) ∈ st.tx_streamers → devno bid = mb_index →
      (bid, some { s with tick_rate := rate, samp_rate := rate })
        ∈ (update_tick_rate devno st mb_index rate).tx_streamers) := by
  constructor
  · intro bid s hmem hdev
    have := List.mem_map_of_mem
      (fun p : String × Option recv_packet_streamer =>
        if devno p.1 == mb_index then (p.1, rx_refresh p.2) else p) hmem
    simpa [update_tick_rate, hdev, rx_refresh] using this
  · intro bid s hmem hdev
    have := List.mem_map_of_mem
      (fun p : String × Option send_packet_streamer =>
        if devno p.1 == mb_index then
          (p.1, p.2.map (fun t => { t with tick_rate := rate, samp_rate := rate }))
        else p) hmem
    simpa [update_tick_rate, hdev] using this

/-- A concrete registry state: one live RX endpoint and one live TX
endpoint, both keyed for motherboard 0. -/
def tickW : x300_impl_state :=
  { mbs := []
    rx_streamers := [("0/Radio_0", some ⟨200, 25, 100, 10, 1⟩)]
    tx_streamers := [("0/Radio_0", some ⟨100, 10, 1, []⟩)]
    tree := ⟨[], []⟩
    log := [] }

/-- Witness for C2: on `tickW`, `update_tick_rate(0, 184)` refreshes the
RX endpoint to its terminator's values (200, 25) and sets the TX
endpoint's rates to 184. -/
theorem update_tick_rate_rx_refresh_tx_apply_witness :
    ("0/Radio_0", some (⟨200, 25, 200, 25, 1⟩ : recv_packet_streamer))
      ∈ (update_tick_rate (fun _ => 0) tickW 0 184).rx_streamers ∧
    ("0/Radio_0", some (⟨184, 184, 1, []⟩ : send_packet_streamer))
      ∈ (update_tick_rate (fun _ => 0) tickW 0 184).tx_streamers :=
  ⟨(update_tick_rate_rx_refresh_tx_apply (fun _ => 0) tickW 0 184).1
      "0/Radio_0" ⟨200, 25, 100, 10, 1⟩ (by simp [tickW]) rfl,
   (update_tick_rate_rx_refresh_tx_apply (fun _ => 0) tickW 0 184).2
      "0/Radio_0" ⟨100, 10, 1, []⟩ (by simp [tickW]) rfl⟩

/-- **C8.** `update_tick_rate(mb_index, rate)` silently skips every
registry entry whose weak reference is expired and every entry whose
key belongs to a different motherboard: the entry is carried over
unchanged (no rate or sample-rate setting is applied to it), and the
function is total — no error is raised. -/
theorem update_tick_rate_skips_dead_and_foreign (devno : String → Nat)
    (st : x300_impl_state) (mb_index : Nat) (rate : Rat) :
    (∀ bid w, (bid, w) ∈ st.rx_streamers → (devno bid ≠ mb_index ∨ w = none) →
      (bid, w) ∈ (update_tick_rate devno st mb_index rate).rx_streamers) ∧
    (∀ bid w, (bid, w) ∈ st.tx_streamers → (devno bid ≠ mb_index ∨ w = none) →
      (bid, w) ∈ (update_tick_rate devno st mb_index rate).tx_streamers) := by
  constructor
  · intro bid w hmem hskip
    have := List.mem_map_of_mem
      (fun p : String × Option recv_packet_streamer =>
        if devno p.1 == mb_index then (p.1, rx_refresh p.2) else p) hmem
    rcases hskip with hdev | hw
    · simpa [update_tick_rate, hdev] using this
    · subst hw
      by_cases hd : devno bid = mb_index
      · simpa [update_tick_rate, hd, rx_refresh] using this
      · simpa [update_tick_rate, hd] using this
  · intro bid w hmem hskip
    have := List.mem_map_of_mem
      (fun p : String × Option send_packet_streamer =>
        if devno p.1 == mb_index then
          (p.1, p.2.map (fun t => { t with tick_rate := rate, samp_rate := rate }))
        else p) hmem
    rcases hskip with hdev | hw
    · simpa [update_tick_rate, hdev] using this
    · subst hw
      by_cases hd : devno bid = mb_index
      · simpa [update_tick_rate, hd] using this
      · simpa [update_tick_rate, hd] using this

/-- A registry with one expired RX entry on motherboard 0, one live RX
entry on motherboard 1, an expired TX entry on motherboard 0 and a live
TX entry on motherboard 1; the device number is the leading digit of
the key. -/
def tickSkipW : x300_impl_state :=
  { mbs := []
    rx_streamers := [("0/Radio_0", none), ("1/Radio_0", some ⟨200, 25, 100, 10, 1⟩)]
    tx_streamers := [("0/Radio_0", none), ("1/Radio_0", some ⟨100, 10, 1, []⟩)]
    tree := ⟨[], []⟩
    log := [] }

/-- The leading-digit device-number parse used by the concrete
witnesses: `"0/..." ↦ 0`, anything else `↦ 1`. -/
def devnoW (bid : String) : Nat := if bid.take 2 == "0/" then 0 else 1

/-- Witness for C8: on `tickSkipW`, `update_tick_rate(0, 184)` keeps
the expired motherboard-0 entries and the live motherboard-1 entries
exactly as they were. -/
theorem update_tick_rate_skips_dead_and_foreign_witness :
    ("0/Radio_0", (none : Option recv_packet_streamer))
      ∈ (update_tick_rate devnoW tickSkipW 0 184).rx_streamers ∧
    ("1/Radio_0", some (⟨200, 25, 100, 10, 1⟩ : recv_packet_streamer))
      ∈ (update_tick_rate devnoW tickSkipW 0 184).rx_streamers ∧
    ("1/Radio_0", some (⟨100, 10, 1, []⟩ : send_packet_streamer))
      ∈ (update_tick_rate devnoW tickSkipW 0 184).tx_streamers :=
  ⟨(update_tick_rate_skips_dead_and_foreign devnoW tickSkipW 0 184).1
      "0/Radio_0" none (by simp [tickSkipW]) (Or.inr rfl),
   (update_tick_rate_skips_dead_and_foreign devnoW tickSkipW 0 184).1
      "1/Radio_0" (some ⟨200, 25, 100, 10, 1⟩) (by simp [tickSkipW])
      (Or.inl (by decide)),
   (update_tick_rate_skips_dead_and_foreign devnoW tickSkipW 0 184).2
      "1/Radio_0" (some ⟨100, 10, 1, []⟩) (by simp [tickSkipW])
      (Or.inl (by decide))⟩

/-! ## C7 and C10: update_rx_samp_rate / update_tx_samp_rate -/

/-- **C7.** `update_rx_samp_rate(mb, dspno, rate)`: when no RX endpoint
is registered under `"Radio_<dspno>"`, or the registered weak reference
is expired, the call leaves the state untouched (a no-op, not an
error); when the endpoint resolves, its sample rate is set to `rate`
and its scale factor to the DDC scaling adjustment read from
`mb.radio_perifs[dspno]` at that moment.  `update_tx_samp_rate` behaves
symmetrically with the TX registry and the DUC scaling adjustment. -/
theorem update_samp_rate_set_and_scale (st : x300_impl_state)
    (mb : mboard_members_t) (dspno : Nat) (rate : Rat) :
    (dict_get st.rx_streamers ("Radio_" ++ toString dspno) = none →
      update_rx_samp_rate st mb dspno rate = st) ∧
    (dict_get st.rx_streamers ("Radio_" ++ toString dspno) = some none →
      update_rx_samp_rate st mb dspno rate = st) ∧
    (∀ s, dict_get st.rx_streamers ("Radio_" ++ toString dspno) = some (some s) →
      dict_get (update_rx_samp_rate st mb dspno rate).rx_streamers
          ("Radio_" ++ toString dspno)
        = some (some { s with samp_rate := rate, scale_factor := (mb.radio_perifs.getD dspno default).ddc.scaling_adjustment })) ∧
    (dict_get st.tx_streamers ("Radio_" ++ toString dspno) = none →
      update_tx_samp_rate st mb dspno rate = st) ∧
    (dict_get st.tx_streamers ("Radio_" ++ toString dspno) = some none →
      update_tx_samp_rate st mb dspno rate = st) ∧
    (∀ s, dict_get st.tx_streamers ("Radio_" ++ toString dspno) = some (some s) →
      dict_get (update_tx_samp_rate st mb dspno rate).tx_streamers
          ("Radio_" ++ toString dspno)
        = some (some { s with samp_rate := rate, scale_factor := (mb.radio_perifs.getD dspno default).duc.scaling_adjustment })) := by
  refine ⟨?_, ?_, ?_, ?_, ?_, ?_⟩
  · intro h; simp [update_rx_samp_rate, h]
  · intro h; simp [update_rx_samp_rate, h]
  · intro s h
    simp [update_rx_samp_rate, h, dict_get_update_self]
  · intro h; simp [update_tx_samp_rate, h]
  · intro h; simp [update_tx_samp_rate, h]
  · intro s h
    simp [update_tx_samp_rate, h, dict_get_update_self]

/-- A registry with a live RX endpoint and a live TX endpoint both
under key `"Radio_0"`. -/
def sampW : x300_impl_state :=
  { mbs := []
    rx_streamers := [("Radio_0", some ⟨200, 25, 100, 10, 1⟩)]
    tx_streamers := [("Radio_0", some ⟨100, 10, 1, []⟩)]
    tree := ⟨[], []⟩
    log := [] }

/-- A motherboard whose radio 0 has DDC scaling adjustment 3/2 and DUC
scaling adjustment 5/4. -/
def mbA : mboard_members_t :=
  { radio_perifs := [⟨⟨none, 3/2⟩, ⟨5/4⟩, ⟨none⟩, ⟨none⟩⟩]
    get_radio_index := fun s => if s == "A" then 0 else 1
    recv_args := []
    send_args := []
    xport_path := "eth0" }

/-- A motherboard whose radio 0 has DDC scaling adjustment 7/8 and DUC
scaling adjustment 9/16. -/
def mbB : mboard_members_t :=
  { radio_perifs := [⟨⟨none, 7/8⟩, ⟨9/16⟩, ⟨none⟩, ⟨none⟩⟩]
    get_radio_index := fun s => if s == "A" then 0 else 1
    recv_args := []
    send_args := []
    xport_path := "eth0" }

/-- Witness for C7: on `sampW` with motherboard `mbA`,
`update_rx_samp_rate(mbA, 0, 184)` sets the RX endpoint's sample rate
to 184 and its scale factor to `mbA`'s DDC adjustment 3/2, and
`update_tx_samp_rate(mbA, 0, 184)` sets the TX endpoint's sample rate
to 184 and its scale factor to `mbA`'s DUC adjustment 5/4. -/
theorem update_samp_rate_set_and_scale_witness :
    dict_get (update_rx_samp_rate sampW mbA 0 184).rx_streamers
        ("Radio_" ++ toString 0)
      = some (some (⟨200, 25, 100, 184, 3/2⟩ : recv_packet_streamer)) ∧
    dict_get (update_tx_samp_rate sampW mbA 0 184).tx_streamers
        ("Radio_" ++ toString 0)
      = some (some (⟨100, 184, 5/4, []⟩ : send_packet_streamer)) :=
  ⟨(update_samp_rate_set_and_scale sampW mbA 0 184).2.2.1
      ⟨200, 25, 100, 10, 1⟩ (by decide),
   (update_samp_rate_set_and_scale sampW mbA 0 184).2.2.2.2.2
      ⟨100, 10, 1, []⟩ (by decide)⟩

/-- **C10.** The registry key used by `update_rx_samp_rate` and
`update_tx_samp_rate` is `"Radio_<dspno>"`, determined solely by the
DSP index and independent of which motherboard's state is passed: for
any two motherboards `mb1` and `mb2` and the same `dspno`, both calls
address exactly the same registry entry (every other key is left
untouched), while the scale factor written comes from the passed
motherboard's radio peripherals. -/
theorem update_samp_rate_key_ignores_mboard (st : x300_impl_state)
    (mb1 mb2 : mboard_members_t) (dspno : Nat) (rate : Rat) :
    (∀ bid, bid ≠ "Radio_" ++ toString dspno →
      dict_get (update_rx_samp_rate st mb1 dspno rate).rx_streamers bid
        = dict_get st.rx_streamers bid ∧
      dict_get (update_tx_samp_rate st mb1 dspno rate).tx_streamers bid
        = dict_get st.tx_streamers bid) ∧
    (∀ s, dict_get st.rx_streamers ("Radio_" ++ toString dspno) = some (some s) →
      dict_get (update_rx_samp_rate st mb1 dspno rate).rx_streamers ("Radio_" ++ toString dspno)
        = some (some { s with samp_rate := rate, scale_factor := (mb1.radio_perifs.getD dspno default).ddc.scaling_adjustment }) ∧
      dict_get (update_rx_samp_rate st mb2 dspno rate).rx_streamers ("Radio_" ++ toString dspno)
        = some (some { s with samp_rate := rate, scale_factor := (mb2.radio_perifs.getD dspno default).ddc.scaling_adjustment })) ∧
    (∀ s, dict_get st.tx_streamers ("Radio_" ++ toString dspno) = some (some s) →
      dict_get (update_tx_samp_rate st mb1 dspno rate).tx_streamers ("Radio_" ++ toString dspno)
        = some (some { s with samp_rate := rate, scale_factor := (mb1.radio_perifs.getD dspno default).duc.scaling_adjustment }) ∧
      dict_get (update_tx_samp_rate st mb2 dspno rate).tx_streamers ("Radio_" ++ toString dspno)
        = some (some { s with samp_rate := rate, scale_factor := (mb2.radio_perifs.getD dspno default).duc.scaling_adjustment })) := by
  refine ⟨?_, ?_, ?_⟩
  · intro bid hbid
    constructor
    · unfold update_rx_samp_rate
      cases h : dict_get st.rx_streamers ("Radio_" ++ toString dspno) with
      | none => simp [h]
      | some w =>
        cases w with
        | none => simp [h]
        | some s => simp [h, dict_get_update_ne _ _ _ _ hbid]
    · unfold update_tx_samp_rate
      cases h : dict_get st.tx_streamers ("Radio_" ++ toString dspno) with
      | none => simp [h]
      | some w =>
        cases w with
        | none => simp [h]
        | some s => simp [h, dict_get_update_ne _ _ _ _ hbid]
  · intro s h
    constructor
    · simp [update_rx_samp_rate, h, dict_get_update_self]
    · simp [update_rx_samp_rate, h, dict_get_update_self]
  · intro s h
    constructor
    · simp [update_tx_samp_rate, h, dict_get_update_self]
    · simp [update_tx_samp_rate, h, dict_get_update_self]

/-- Witness for C10: on `sampW`, `update_rx_samp_rate` with `mbA` and
with `mbB` both rewrite the same entry `"Radio_0"`, taking the scale
factor 3/2 from `mbA` and 7/8 from `mbB` respectively, and a foreign
key is untouched. -/
theorem update_samp_rate_key_ignores_mboard_witness :
    (dict_get (update_rx_samp_rate sampW mbA 0 184).rx_streamers "Radio_1"
      = dict_get sampW.rx_streamers "Radio_1") ∧
    dict_get (update_rx_samp_rate sampW mbA 0 184).rx_streamers ("Radio_" ++ toString 0)
      = some (some (⟨200, 25, 100, 184, 3/2⟩ : recv_packet_streamer)) ∧
    dict_get (update_rx_samp_rate sampW mbB 0 184).rx_streamers ("Radio_" ++ toString 0)
      = some (some (⟨200, 25, 100, 184, 7/8⟩ : recv_packet_streamer)) :=
  ⟨((update_samp_rate_key_ignores_mboard sampW mbA mbB 0 184).1 "Radio_1"
      (by decide)).1,
   ((update_samp_rate_key_ignores_mboard sampW mbA mbB 0 184).2.1
      ⟨200, 25, 100, 10, 1⟩ (by decide)).1,
   ((update_samp_rate_key_ignores_mboard sampW mbA mbB 0 184).2.1
      ⟨200, 25, 100, 10, 1⟩ (by decide)).2⟩

/-! ## C9: get_rx_hints / get_tx_hints -/

/-- **C9.** For a valid motherboard index, `get_rx_hints` returns the
motherboard's stored receive configuration, except that when that
configuration has no `recv_buff_size` entry and the motherboard's
transport path is not `"nirio"`, the returned map additionally carries
the platform-dependent default buffer size (the macOS/BSD constant on
those platforms, the Ethernet constant on Linux/Windows) while every
other key is unchanged; `get_tx_hints` returns the stored send
configuration unmodified.  Both functions are total, so neither
operation raises. -/
theorem get_hints_behavior (platform : uhd_platform) (sz_macos sz_eth : String)
    (st : x300_impl_state) (mb_index : Nat) (hmb : mb_index < st.mbs.length) :
    get_tx_hints st mb_index = (st.mbs.getD mb_index default).send_args ∧
    (dict_has_key (st.mbs.getD mb_index default).recv_args "recv_buff_size" = true →
      get_rx_hints platform sz_macos sz_eth st mb_index
        = (st.mbs.getD mb_index default).recv_args) ∧
    ((st.mbs.getD mb_index default).xport_path = "nirio" →
      get_rx_hints platform sz_macos sz_eth st mb_index
        = (st.mbs.getD mb_index default).recv_args) ∧
    (dict_has_key (st.mbs.getD mb_index default).recv_args "recv_buff_size" = false →
      (st.mbs.getD mb_index default).xport_path ≠ "nirio" →
      dict_get (get_rx_hints platform sz_macos sz_eth st mb_index) "recv_buff_size"
          = some (match platform with
              | uhd_platform.macos => sz_macos
              | uhd_platform.bsd => sz_macos
              | uhd_platform.linux_host => sz_eth
              | uhd_platform.win32 => sz_eth) ∧
      ∀ k, k ≠ "recv_buff_size" →
        dict_get (get_rx_hints platform sz_macos sz_eth st mb_index) k
          = dict_get (st.mbs.getD mb_index default).recv_args k) := by
  refine ⟨rfl, ?_, ?_, ?_⟩
  · intro h
    simp only [get_rx_hints]
    rw [h, if_neg (show ¬((!true) = true) by simp)]
  · intro h
    simp only [get_rx_hints]
    cases hk : dict_has_key (st.mbs.getD mb_index default).recv_args "recv_buff_size" with
    | false =>
      rw [if_pos (show (!false) = true from rfl),
        if_neg (show ¬((st.mbs.getD mb_index default).xport_path ≠ "nirio") from fun hc => hc h)]
    | true =>
      rw [if_neg (show ¬((!true) = true) by simp)]
  · intro hk hx
    simp only [get_rx_hints]
    rw [hk, if_pos (show (!false) = true from rfl), if_pos hx]
    refine ⟨dict_get_set_self _ _ _, ?_⟩
    intro k hkk
    exact dict_get_set_ne _ _ _ _ hkk

/-- A state with one motherboard (`mbA`: empty `recv_args`, transport
path `"eth0"`). -/
def hintsW : x300_impl_state :=
  { mbs := [mbA]
    rx_streamers := []
    tx_streamers := []
    tree := ⟨[], []⟩
    log := [] }

/-- Witness for C9: on Linux with no stored `recv_buff_size` hint and a
non-nirio transport, `get_rx_hints` injects the Ethernet default, and
`get_tx_hints` returns the stored send configuration. -/
theorem get_hints_behavior_witness :
    get_tx_hints hintsW 0 = (hintsW.mbs.getD 0 default).send_args ∧
    dict_get (get_rx_hints uhd_platform.linux_host "1048576" "33554432" hintsW 0)
        "recv_buff_size" = some "33554432" :=
  ⟨(get_hints_behavior uhd_platform.linux_host "1048576" "33554432" hintsW 0
      (by decide)).1,
   ((get_hints_behavior uhd_platform.linux_host "1048576" "33554432" hintsW 0
      (by decide)).2.2.2 (by decide) (by decide)).1⟩

/-! ## C5 and C6: post_streamer_hooks -/

/-- The DAC-synchronization calls §4.4 of the spec expects for one pass
over a TX-registry snapshot: exactly one `synchronize_dacs` invocation
per live endpoint, carrying that endpoint's entire downstream radio
group; expired references contribute nothing. -/
def spec_sync_events : List (String × Option send_packet_streamer) → List io_event
  | [] => []
  | (_, none) :: rest => spec_sync_events rest
  | (_, some s) :: rest => io_event.sync_dacs s.downstream_radios :: spec_sync_events rest

theorem post_streamer_loop_all_ok (sync_err : List (Nat × Nat) → Option String) :
    ∀ (l : List (String × Option send_packet_streamer)) (st : x300_impl_state),
    (∀ p ∈ l, ∀ s, p.2 = some s → sync_err s.downstream_radios = none) →
    post_streamer_loop sync_err st l
      = ({ st with log := st.log ++ spec_sync_events l }, none) := by
  intro l
  induction l with
  | nil => intro st h; simp [post_streamer_loop, spec_sync_events]
  | cons p rest ih =>
    intro st h
    obtain ⟨bid, w⟩ := p
    cases w with
    | none =>
      simp only [post_streamer_loop, spec_sync_events]
      exact ih st (fun q hq => h q (List.mem_cons_of_mem _ hq))
    | some s =>
      have hok : sync_err s.downstream_radios = none :=
        h (bid, some s) (List.mem_cons_self _ _) s rfl
      simp only [post_streamer_loop, spec_sync_events, hok]
      rw [ih _ (fun q hq => h q (List.mem_cons_of_mem _ hq))]
      simp

/-- **C5.** When every DAC-sync call succeeds, `post_streamer_hooks(true)`
makes exactly one `synchronize_dacs` call per live TX endpoint in the
registry, each carrying the entire group of radio-control blocks found
downstream of that endpoint (never one call per radio or per
motherboard), and nothing else. -/
theorem post_streamer_hooks_sync_once_per_streamer
    (sync_err : List (Nat × Nat) → Option String) (st : x300_impl_state)
    (h : ∀ p ∈ st.tx_streamers, ∀ s, p.2 = some s →
      sync_err s.downstream_radios = none) :
    post_streamer_hooks sync_err st true
      = ({ st with log := st.log ++ spec_sync_events st.tx_streamers }, none) := by
  simp only [post_streamer_hooks, if_pos]
  exact post_streamer_loop_all_ok sync_err st.tx_streamers st h

/-- One live TX endpoint whose downstream graph holds 3 radio-control
blocks spread over motherboards 0 and 1. -/
def syncW : x300_impl_state :=
  { mbs := []
    rx_streamers := []
    tx_streamers := [("0/Radio_0", some ⟨100, 10, 1, [(0, 0), (0, 1), (1, 0)]⟩)]
    tree := ⟨[], []⟩
    log := [] }

/-- Witness for C5: a graph with 3 radios across 2 motherboards yields
exactly one `synchronize_dacs` call, with exactly those 3 radios. -/
theorem post_streamer_hooks_sync_once_per_streamer_witness :
    post_streamer_hooks (fun _ => none) syncW true
      = ({ syncW with log := [io_event.sync_dacs [(0, 0), (0, 1), (1, 0)]] }, none) := by
  have := post_streamer_hooks_sync_once_per_streamer (fun _ => none) syncW
    (fun p _ s _ => rfl)
  simpa [syncW, spec_sync_events] using this

theorem post_streamer_loop_first_failure
    (sync_err : List (Nat × Nat) → Option String) (bid : String)
    (s : send_packet_streamer) (post : List (String × Option send_packet_streamer))
    (msg : String) (hfail : sync_err s.downstream_radios = some msg) :
    ∀ (pre : List (String × Option send_packet_streamer)) (st : x300_impl_state),
    (∀ p ∈ pre, ∀ t, p.2 = some t → sync_err t.downstream_radios = none) →
    post_streamer_loop sync_err st (pre ++ (bid, some s) :: post)
      = ({ st with log := st.log ++ spec_sync_events pre
              ++ [io_event.sync_dacs s.downstream_radios] },
         some (uhd_error.io_error ("Failed to sync DACs! " ++ msg ++ " "))) := by
  intro pre
  induction pre with
  | nil =>
    intro st h
    simp only [List.nil_append, post_streamer_loop, hfail, spec_sync_events]
    simp
  | cons p rest ih =>
    intro st h
    obtain ⟨b, w⟩ := p
    cases w with
    | none =>
      simp only [List.cons_append, post_streamer_loop, spec_sync_events]
      exact ih st (fun q hq => h q (List.mem_cons_of_mem _ hq))
    | some t =>
      have hok : sync_err t.downstream_radios = none :=
        h (b, some t) (List.mem_cons_self _ _) t rfl
      simp only [List.cons_append, post_streamer_loop, spec_sync_events, hok,
        List.append_eq]
      rw [ih _ (fun q hq => h q (List.mem_cons_of_mem _ hq))]
      simp

/-- **C6 (amended).** When `synchronize_dacs` fails for the group of the
first live TX endpoint it fails on, `post_streamer_hooks(true)` raises a
single `uhd::io_error` whose message wraps the underlying error's
message (`"Failed to sync DACs! <cause> "` — the group's size is *not*
part of the error), and the rethrow aborts the dispatch loop: endpoints
earlier in the registry were already dispatched, endpoints after the
failing one are never dispatched. -/
theorem post_streamer_hooks_failure_aborts
    (sync_err : List (Nat × Nat) → Option String) (st : x300_impl_state)
    (pre : List (String × Option send_packet_streamer)) (bid : String)
    (s : send_packet_streamer) (post : List (String × Option send_packet_streamer))
    (msg : String)
    (hsplit : st.tx_streamers = pre ++ (bid, some s) :: post)
    (hpre : ∀ p ∈ pre, ∀ t, p.2 = some t → sync_err t.downstream_radios = none)
    (hfail : sync_err s.downstream_radios = some msg) :
    post_streamer_hooks sync_err st true
      = ({ st with log := st.log ++ spec_sync_events pre
              ++ [io_event.sync_dacs s.downstream_radios] },
         some (uhd_error.io_error ("Failed to sync DACs! " ++ msg ++ " "))) := by
  have hloop := post_streamer_loop_first_failure sync_err bid s post msg hfail pre st hpre
  rw [← hsplit] at hloop
  simpa [post_streamer_hooks] using hloop

/-- Two live TX endpoints: the first's downstream group is radio
`(0,0)`, the second's is radio `(0,1)`. -/
def cstC6 : x300_impl_state :=
  { mbs := []
    rx_streamers := []
    tx_streamers := [("0/Radio_0", some ⟨100, 10, 1, [(0, 0)]⟩),
                     ("0/Radio_1", some ⟨100, 10, 1, [(0, 1)]⟩)]
    tree := ⟨[], []⟩
    log := [] }

/-- A `synchronize_dacs` model that fails with "timeout" exactly on the
first endpoint's group `[(0,0)]`. -/
def cerrC6 (radios : List (Nat × Nat)) : Option String :=
  if radios = [(0, 0)] then some "timeout" else none

/-- Counterexample to C6 as stated: with two live TX endpoints and a
sync failure on the first one's group, the raised error's message is
exactly `"Failed to sync DACs! timeout "` — it carries the underlying
cause but no group size — and no `synchronize_dacs` call is ever made
for the second live endpoint's group `[(0,1)]`: sync dispatch is *not*
attempted for the other live TX endpoints in the same call. -/
theorem post_streamer_hooks_failure_counterexample :
    (post_streamer_hooks cerrC6 cstC6 true).2
        = some (uhd_error.io_error "Failed to sync DACs! timeout ") ∧
    io_event.sync_dacs [(0, 1)] ∉ (post_streamer_hooks cerrC6 cstC6 true).1.log := by
  decide

/-- Witness for C6 (amended): on `cstC6`, the failing call yields the
wrapped message and a log holding only the first group's sync call. -/
theorem post_streamer_hooks_failure_aborts_witness :
    post_streamer_hooks cerrC6 cstC6 true
      = ({ cstC6 with log := [io_event.sync_dacs [(0, 0)]] },
         some (uhd_error.io_error "Failed to sync DACs! timeout ")) := by
  have := post_streamer_hooks_failure_aborts cerrC6 cstC6 []
    "0/Radio_0" ⟨100, 10, 1, [(0, 0)]⟩ [("0/Radio_1", some ⟨100, 10, 1, [(0, 1)]⟩)]
    "timeout" rfl (fun p hp => absurd hp (List.not_mem_nil p)) rfl
  simpa [cstC6, spec_sync_events] using this

/-! ## C1, C3, C4: update_subdev_spec -/

theorem modify_perif_resolver (st : x300_impl_state) (mb dsp : Nat)
    (f : radio_perifs_t → radio_perifs_t) (k : Nat) :
    ((st.modify_perif mb dsp f).mbs.getD k default).get_radio_index
      = (st.mbs.getD k default).get_radio_index := by
  simp only [x300_impl_state.modify_perif]
  rw [modN_getD]
  split
  · rfl
  · rfl

theorem ddc_set_mux_resolver (st : x300_impl_state) (mb dsp : Nat)
    (conn : String) (sw : Bool) (k : Nat) :
    ((st.ddc_set_mux mb dsp conn sw).mbs.getD k default).get_radio_index
      = (st.mbs.getD k default).get_radio_index :=
  modify_perif_resolver st mb dsp _ k

theorem rx_fe_set_mux_resolver (st : x300_impl_state) (mb dsp : Nat)
    (sw : Bool) (k : Nat) :
    ((st.rx_fe_set_mux mb dsp sw).mbs.getD k default).get_radio_index
      = (st.mbs.getD k default).get_radio_index :=
  modify_perif_resolver st mb dsp _ k

theorem tx_fe_set_mux_resolver (st : x300_impl_state) (mb dsp : Nat)
    (conn : String) (k : Nat) :
    ((st.tx_fe_set_mux mb dsp conn).mbs.getD k default).get_radio_index
      = (st.mbs.getD k default).get_radio_index :=
  modify_perif_resolver st mb dsp _ k

/-- The mux-programming calls §4.3 of the spec expects for a subdevice
spec, entry by entry: for TX, program the radio's TX front-end mux with
the raw connection string; for RX, compute
`fe_swapped = (connection == "QI" or connection == "Q")`, program the
DDC mux with `(connection, fe_swapped)` and the RX analog front-end
with `fe_swapped` alone.  The connection string and radio index are
read from the initial state (the loop changes neither). -/
def spec_mux_events (tx_rx mb_name : String) (mb_i : Nat)
    (st : x300_impl_state) : subdev_spec_t → List io_event
  | [] => []
  | e :: rest =>
    let r := (st.mbs.getD mb_i default).get_radio_index e.db_name
    let conn := (st.tree.getStr (connPath mb_name tx_rx e)).getD ""
    (if tx_rx == "tx" then
      [io_event.tx_fe_set_mux mb_i r conn]
     else
      [io_event.ddc_set_mux mb_i r conn (conn == "QI" || conn == "Q"),
       io_event.rx_fe_set_mux mb_i r (conn == "QI" || conn == "Q")])
      ++ spec_mux_events tx_rx mb_name mb_i st rest

theorem spec_mux_events_congr (tx_rx mb_name : String) (mb_i : Nat)
    (st st' : x300_impl_state) (ht : st'.tree = st.tree)
    (hr : (st'.mbs.getD mb_i default).get_radio_index
        = (st.mbs.getD mb_i default).get_radio_index)
    (spec : subdev_spec_t) :
    spec_mux_events tx_rx mb_name mb_i st' spec
      = spec_mux_events tx_rx mb_name mb_i st spec := by
  induction spec with
  | nil => rfl
  | cons e rest ih => simp only [spec_mux_events, ht, hr, ih]

theorem subdev_mux_loop_ok (tx_rx mb_name : String) (mb_i : Nat) :
    ∀ (spec : subdev_spec_t) (st : x300_impl_state),
    (∀ e ∈ spec, (st.tree.getStr (connPath mb_name tx_rx e)).isSome = true) →
    (subdev_mux_loop tx_rx mb_name mb_i st spec).2.2 = none ∧
    (subdev_mux_loop tx_rx mb_name mb_i st spec).2.1
      = spec.map (fun e => (st.mbs.getD mb_i default).get_radio_index e.db_name) ∧
    (subdev_mux_loop tx_rx mb_name mb_i st spec).1.tree = st.tree ∧
    (subdev_mux_loop tx_rx mb_name mb_i st spec).1.log
      = st.log ++ spec_mux_events tx_rx mb_name mb_i st spec ∧
    (∀ k, ((subdev_mux_loop tx_rx mb_name mb_i st spec).1.mbs.getD k default).get_radio_index
      = (st.mbs.getD k default).get_radio_index) := by
  intro spec
  induction spec with
  | nil =>
    intro st h
    refine ⟨rfl, rfl, rfl, by simp [subdev_mux_loop, spec_mux_events], fun k => rfl⟩
  | cons e rest ih =>
    intro st h
    have hhead := h e (List.mem_cons_self _ _)
    rw [Option.isSome_iff_exists] at hhead
    obtain ⟨conn, hconn⟩ := hhead
    by_cases htx : (tx_rx == "tx") = true
    · -- TX branch
      have htree' : (st.tx_fe_set_mux mb_i
          ((st.mbs.getD mb_i default).get_radio_index e.db_name) conn).tree = st.tree := rfl
      have hres' : ∀ k, (((st.tx_fe_set_mux mb_i
            ((st.mbs.getD mb_i default).get_radio_index e.db_name) conn).mbs.getD k default)).get_radio_index
          = ((st.mbs.getD k default)).get_radio_index :=
        fun k => tx_fe_set_mux_resolver st mb_i _ conn k
      have hrest : ∀ e' ∈ rest,
          ((st.tx_fe_set_mux mb_i ((st.mbs.getD mb_i default).get_radio_index e.db_name)
            conn).tree.getStr (connPath mb_name tx_rx e')).isSome = true := by
        intro e' he'
        rw [htree']
        exact h e' (List.mem_cons_of_mem _ he')
      obtain ⟨ih1, ih2, ih3, ih4, ih5⟩ := ih _ hrest
      simp only [subdev_mux_loop, hconn, htx, if_true]
      refine ⟨ih1, ?_, ?_, ?_, ?_⟩
      · rw [ih2, List.map_cons]
        congr 1
        apply List.map_congr_left
        intro e' _
        rw [hres' mb_i]
      · rw [ih3, htree']
      · rw [ih4]
        rw [spec_mux_events_congr tx_rx mb_name mb_i st _ htree' (hres' mb_i) rest]
        simp only [spec_mux_events, htx, if_true, hconn]
        simp [x300_impl_state.tx_fe_set_mux, x300_impl_state.modify_perif]
      · intro k
        rw [ih5 k, hres' k]
    · -- RX branch
      have htree' : ((st.ddc_set_mux mb_i
            ((st.mbs.getD mb_i default).get_radio_index e.db_name) conn
            (conn == "QI" || conn == "Q")).rx_fe_set_mux mb_i
            ((st.mbs.getD mb_i default).get_radio_index e.db_name)
            (conn == "QI" || conn == "Q")).tree = st.tree := rfl
      have hres' : ∀ k, ((((st.ddc_set_mux mb_i
            ((st.mbs.getD mb_i default).get_radio_index e.db_name) conn
            (conn == "QI" || conn == "Q")).rx_fe_set_mux mb_i
            ((st.mbs.getD mb_i default).get_radio_index e.db_name)
            (conn == "QI" || conn == "Q")).mbs.getD k default)).get_radio_index
          = ((st.mbs.getD k default)).get_radio_index := by
        intro k
        rw [rx_fe_set_mux_resolver, ddc_set_mux_resolver]
      have hrest : ∀ e' ∈ rest,
          (((st.ddc_set_mux mb_i ((st.mbs.getD mb_i default).get_radio_index e.db_name) conn
            (conn == "QI" || conn == "Q")).rx_fe_set_mux mb_i
            ((st.mbs.getD mb_i default).get_radio_index e.db_name)
            (conn == "QI" || conn == "Q")).tree.getStr
              (connPath mb_name tx_rx e')).isSome = true := by
        intro e' he'
        rw [htree']
        exact h e' (List.mem_cons_of_mem _ he')
      obtain ⟨ih1, ih2, ih3, ih4, ih5⟩ := ih _ hrest
      simp only [subdev_mux_loop, hconn, htx, if_false, Bool.false_eq_true]
      refine ⟨ih1, ?_, ?_, ?_, ?_⟩
      · rw [ih2, List.map_cons]
        congr 1
        apply List.map_congr_left
        intro e' _
        rw [hres' mb_i]
      · rw [ih3, htree']
      · rw [ih4]
        rw [spec_mux_events_congr tx_rx mb_name mb_i st _ htree' (hres' mb_i) rest]
        simp only [spec_mux_events, htx, if_false, Bool.false_eq_true, hconn]
        simp [x300_impl_state.rx_fe_set_mux, x300_impl_state.ddc_set_mux,
          x300_impl_state.modify_perif]
      · intro k
        rw [ih5 k, hres' k]

theorem update_subdev_spec_success (st : x300_impl_state) (tx_rx : String)
    (mb_i : Nat) (spec : subdev_spec_t)
    (hdirb : (tx_rx == "tx" || tx_rx == "rx") = true)
    (hmb : mb_i < st.mbs.length)
    (hlen : spec.length ≤ 2)
    (hshape : spec_shape_ok spec = true)
    (hvalid : ∀ e ∈ spec,
      (st.tree.getStr (connPath (toString mb_i) tx_rx e)).isSome = true) :
    update_subdev_spec st tx_rx mb_i spec
      = ((subdev_mux_loop tx_rx (toString mb_i) mb_i st spec).1.persist_mapping
          (fsj ("/mboards/" ++ toString mb_i) (tx_rx ++ "_chan_dsp_mapping"))
          (subdev_mux_loop tx_rx (toString mb_i) mb_i st spec).2.1, none) := by
  have hall : spec.all
      (fun e => (st.tree.getStr (connPath (toString mb_i) tx_rx e)).isSome) = true :=
    List.all_eq_true.mpr hvalid
  have hval : validate_subdev_spec st.tree spec tx_rx (toString mb_i) = none := by
    simp only [validate_subdev_spec, if_pos hall]
  have hnone := (subdev_mux_loop_ok tx_rx (toString mb_i) mb_i spec st hvalid).1
  simp only [update_subdev_spec, if_pos hdirb, if_pos hmb, hval, if_pos hlen,
    if_pos hshape, hnone]

theorem update_subdev_spec_shape_fail (st : x300_impl_state) (tx_rx : String)
    (mb_i : Nat) (spec : subdev_spec_t)
    (hdirb : (tx_rx == "tx" || tx_rx == "rx") = true)
    (hmb : mb_i < st.mbs.length)
    (hlen : spec.length ≤ 2)
    (hshape : spec_shape_ok spec = false)
    (hvalid : ∀ e ∈ spec,
      (st.tree.getStr (connPath (toString mb_i) tx_rx e)).isSome = true) :
    update_subdev_spec st tx_rx mb_i spec = (st, some uhd_error.assertion_error) := by
  have hall : spec.all
      (fun e => (st.tree.getStr (connPath (toString mb_i) tx_rx e)).isSome) = true :=
    List.all_eq_true.mpr hvalid
  have hval : validate_subdev_spec st.tree spec tx_rx (toString mb_i) = none := by
    simp only [validate_subdev_spec, if_pos hall]
  simp only [update_subdev_spec, if_pos hdirb, if_pos hmb, hval, if_pos hlen,
    hshape, Bool.false_eq_true, if_false]

/-- **C1.** For a subdevice spec of length 2 (with the external
hardware-compatibility check passing, i.e. every named pair present in
the tree), `update_subdev_spec` succeeds if and only if the two
daughterboard names are exactly "A" and "B" in some order; any other
pairing (including "A","A" and "B","B") fails with a configuration
error (`uhd::assertion_error`) raised before the mux loop runs,
returning the state — mux programming, log and all — completely
unchanged. -/
theorem update_subdev_spec_len2_iff_ab (st : x300_impl_state) (tx_rx : String)
    (mb_i : Nat) (spec : subdev_spec_t)
    (hdir : tx_rx = "tx" ∨ tx_rx = "rx")
    (hmb : mb_i < st.mbs.length)
    (hlen : spec.length = 2)
    (hvalid : ∀ e ∈ spec,
      (st.tree.getStr (connPath (toString mb_i) tx_rx e)).isSome = true) :
    ((update_subdev_spec st tx_rx mb_i spec).2 = none ↔
      ((spec.getD 0 default).db_name = "A" ∧ (spec.getD 1 default).db_name = "B") ∨
      ((spec.getD 0 default).db_name = "B" ∧ (spec.getD 1 default).db_name = "A")) ∧
    (¬ (((spec.getD 0 default).db_name = "A" ∧ (spec.getD 1 default).db_name = "B") ∨
        ((spec.getD 0 default).db_name = "B" ∧ (spec.getD 1 default).db_name = "A")) →
      update_subdev_spec st tx_rx mb_i spec = (st, some uhd_error.assertion_error)) := by
  have hdirb : (tx_rx == "tx" || tx_rx == "rx") = true := by
    rcases hdir with h | h <;> simp [h]
  have hlen2 : spec.length ≤ 2 := le_of_eq hlen
  have hshape_eq : spec_shape_ok spec
      = (((spec.getD 0 default).db_name == "A") && ((spec.getD 1 default).db_name == "B")
        || ((spec.getD 0 default).db_name == "B") && ((spec.getD 1 default).db_name == "A")) := by
    unfold spec_shape_ok
    rw [hlen]
    simp
  by_cases hp : ((spec.getD 0 default).db_name = "A" ∧ (spec.getD 1 default).db_name = "B") ∨
      ((spec.getD 0 default).db_name = "B" ∧ (spec.getD 1 default).db_name = "A")
  · have hb : spec_shape_ok spec = true := by
      rw [hshape_eq]
      rcases hp with ⟨h0, h1⟩ | ⟨h0, h1⟩ <;> rw [h0, h1] <;> decide
    have hs := update_subdev_spec_success st tx_rx mb_i spec hdirb hmb hlen2 hb hvalid
    refine ⟨?_, fun hc => absurd hp hc⟩
    rw [hs]
    exact iff_of_true rfl hp
  · have hb : spec_shape_ok spec = false := by
      cases hsb : spec_shape_ok spec with
      | false => rfl
      | true =>
        rw [hshape_eq] at hsb
        exfalso
        apply hp
        simp only [Bool.or_eq_true, Bool.and_eq_true, beq_iff_eq] at hsb
        exact hsb
    have hf := update_subdev_spec_shape_fail st tx_rx mb_i spec hdirb hmb hlen2 hb hvalid
    refine ⟨?_, fun _ => hf⟩
    rw [hf]
    exact iff_of_false (by simp) hp

/-- A motherboard with two radio peripherals where daughterboard "A"
resolves to radio 0 and everything else to radio 1. -/
def subdevW_mb : mboard_members_t :=
  { radio_perifs := [⟨⟨none, 1⟩, ⟨1⟩, ⟨none⟩, ⟨none⟩⟩, ⟨⟨none, 1⟩, ⟨1⟩, ⟨none⟩, ⟨none⟩⟩]
    get_radio_index := fun s => if s == "A" then 0 else 1
    recv_args := []
    send_args := []
    xport_path := "eth0" }

/-- A device state with one motherboard and connection strings for both
frontends of daughterboards "A" (straight, "IQ") and "B" (swapped,
"QI"). -/
def subdevW : x300_impl_state :=
  { mbs := [subdevW_mb]
    rx_streamers := []
    tx_streamers := []
    tree := ⟨[("/mboards/0/dboards/A/rx_frontends/0/connection", "IQ"),
              ("/mboards/0/dboards/B/rx_frontends/0/connection", "QI"),
              ("/mboards/0/dboards/A/tx_frontends/0/connection", "IQ"),
              ("/mboards/0/dboards/B/tx_frontends/0/connection", "QI")], []⟩
    log := [] }

/-- The subdevice spec `A:0 B:0`. -/
def specAB : subdev_spec_t := [⟨"A", "0"⟩, ⟨"B", "0"⟩]

/-- Witness for C1: on `subdevW`, the RX spec `A:0 B:0` (names "A","B")
satisfies the success-iff-pairing equivalence. -/
theorem update_subdev_spec_len2_iff_ab_witness :
    ((update_subdev_spec subdevW "rx" 0 specAB).2 = none ↔
      ((specAB.getD 0 default).db_name = "A" ∧ (specAB.getD 1 default).db_name = "B") ∨
      ((specAB.getD 0 default).db_name = "B" ∧ (specAB.getD 1 default).db_name = "A")) ∧
    (¬ (((specAB.getD 0 default).db_name = "A" ∧ (specAB.getD 1 default).db_name = "B") ∨
        ((specAB.getD 0 default).db_name = "B" ∧ (specAB.getD 1 default).db_name = "A")) →
      update_subdev_spec subdevW "rx" 0 specAB = (subdevW, some uhd_error.assertion_error)) :=
  update_subdev_spec_len2_iff_ab subdevW "rx" 0 specAB (Or.inr rfl)
    (by decide) (by decide) (by decide)

/-- **C4.** After a successful `update_subdev_spec(tx_rx, mb_i, spec)`,
the persisted channel-to-DSP mapping at
`/mboards/<mb_i>/<tx_rx>_chan_dsp_mapping` is exactly
`spec.map (get_radio_index ∘ db_name)` — one entry per spec entry,
entry `i` being the radio index resolved for `spec[i]`'s daughterboard
name — and the call log shows the mapping persisted strictly after all
mux programming of the call. -/
theorem update_subdev_spec_chan_dsp_mapping (st : x300_impl_state)
    (tx_rx : String) (mb_i : Nat) (spec : subdev_spec_t)
    (hdir : tx_rx = "tx" ∨ tx_rx = "rx")
    (hmb : mb_i < st.mbs.length)
    (hlen : spec.length ≤ 2)
    (hshape : spec_shape_ok spec = true)
    (hvalid : ∀ e ∈ spec,
      (st.tree.getStr (connPath (toString mb_i) tx_rx e)).isSome = true) :
    (update_subdev_spec st tx_rx mb_i spec).2 = none ∧
    (update_subdev_spec st tx_rx mb_i spec).1.tree.getVec
        (fsj ("/mboards/" ++ toString mb_i) (tx_rx ++ "_chan_dsp_mapping"))
      = some (spec.map (fun e => (st.mbs.getD mb_i default).get_radio_index e.db_name)) ∧
    (spec.map (fun e => (st.mbs.getD mb_i default).get_radio_index e.db_name)).length
      = spec.length ∧
    (update_subdev_spec st tx_rx mb_i spec).1.log
      = st.log ++ spec_mux_events tx_rx (toString mb_i) mb_i st spec
          ++ [io_event.persist_mapping
              (fsj ("/mboards/" ++ toString mb_i) (tx_rx ++ "_chan_dsp_mapping"))
              (spec.map (fun e => (st.mbs.getD mb_i default).get_radio_index e.db_name))] := by
  have hdirb : (tx_rx == "tx" || tx_rx == "rx") = true := by
    rcases hdir with h | h <;> simp [h]
  have hs := update_subdev_spec_success st tx_rx mb_i spec hdirb hmb hlen hshape hvalid
  obtain ⟨h1, h2, h3, h4, h5⟩ :=
    subdev_mux_loop_ok tx_rx (toString mb_i) mb_i spec st hvalid
  refine ⟨by rw [hs], ?_, List.length_map _ _, ?_⟩
  · rw [hs]
    simp only [x300_impl_state.persist_mapping, prop_tree.setVec, prop_tree.getVec]
    rw [dict_get_set_self, h2]
  · rw [hs]
    simp only [x300_impl_state.persist_mapping]
    rw [h4, h2]

/-- Witness for C4: on `subdevW`, the RX spec `A:0 B:0` persists the
mapping `[0, 1]` at `/mboards/0/rx_chan_dsp_mapping`, after the four
mux-programming calls. -/
theorem update_subdev_spec_chan_dsp_mapping_witness :
    (update_subdev_spec subdevW "rx" 0 specAB).2 = none ∧
    (update_subdev_spec subdevW "rx" 0 specAB).1.tree.getVec
        (fsj ("/mboards/" ++ toString 0) ("rx" ++ "_chan_dsp_mapping"))
      = some (specAB.map (fun e => (subdevW.mbs.getD 0 default).get_radio_index e.db_name)) ∧
    (specAB.map (fun e => (subdevW.mbs.getD 0 default).get_radio_index e.db_name)).length
      = specAB.length ∧
    (update_subdev_spec subdevW "rx" 0 specAB).1.log
      = subdevW.log ++ spec_mux_events "rx" (toString 0) 0 subdevW specAB
          ++ [io_event.persist_mapping
              (fsj ("/mboards/" ++ toString 0) ("rx" ++ "_chan_dsp_mapping"))
              (specAB.map (fun e => (subdevW.mbs.getD 0 default).get_radio_index e.db_name))] :=
  update_subdev_spec_chan_dsp_mapping subdevW "rx" 0 specAB (Or.inr rfl)
    (by decide) (by decide) (by decide) (by decide)

theorem spec_mux_events_mem_rx (mb_name : String) (mb_i : Nat)
    (st : x300_impl_state) :
    ∀ (spec : subdev_spec_t), ∀ e ∈ spec,
    io_event.ddc_set_mux mb_i ((st.mbs.getD mb_i default).get_radio_index e.db_name)
        ((st.tree.getStr (connPath mb_name "rx" e)).getD "")
        (((st.tree.getStr (connPath mb_name "rx" e)).getD "") == "QI"
          || ((st.tree.getStr (connPath mb_name "rx" e)).getD "") == "Q")
      ∈ spec_mux_events "rx" mb_name mb_i st spec ∧
    io_event.rx_fe_set_mux mb_i ((st.mbs.getD mb_i default).get_radio_index e.db_name)
        (((st.tree.getStr (connPath mb_name "rx" e)).getD "") == "QI"
          || ((st.tree.getStr (connPath mb_name "rx" e)).getD "") == "Q")
      ∈ spec_mux_events "rx" mb_name mb_i st spec := by
  intro spec
  induction spec with
  | nil => intro e he; exact absurd he (List.not_mem_nil e)
  | cons e' rest ih =>
    intro e he
    rcases List.mem_cons.mp he with rfl | he'
    · constructor <;> simp [spec_mux_events]
    · obtain ⟨m1, m2⟩ := ih e he'
      simp only [spec_mux_events]
      exact ⟨List.mem_append_right _ m1, List.mem_append_right _ m2⟩

theorem spec_mux_events_mem_tx (mb_name : String) (mb_i : Nat)
    (st : x300_impl_state) :
    ∀ (spec : subdev_spec_t), ∀ e ∈ spec,
    io_event.tx_fe_set_mux mb_i ((st.mbs.getD mb_i default).get_radio_index e.db_name)
        ((st.tree.getStr (connPath mb_name "tx" e)).getD "")
      ∈ spec_mux_events "tx" mb_name mb_i st spec := by
  intro spec
  induction spec with
  | nil => intro e he; exact absurd he (List.not_mem_nil e)
  | cons e' rest ih =>
    intro e he
    rcases List.mem_cons.mp he with rfl | he'
    · simp [spec_mux_events]
    · simp only [spec_mux_events]
      exact List.mem_append_right _ (ih e he')

/-- **C3.** For every successful configure call and every spec entry:
on the RX side the DDC mux is programmed with the pair
`(connection, fe_swapped)` and the RX analog front-end with
`fe_swapped` alone, where `fe_swapped` is the boolean
`connection == "QI" || connection == "Q"` (so `true` exactly for "QI"
and "Q", `false` for "IQ" and "I"); on the TX side the TX front-end mux
is programmed with the raw connection string. -/
theorem update_subdev_spec_mux_programming (st : x300_impl_state) (mb_i : Nat)
    (spec : subdev_spec_t)
    (hmb : mb_i < st.mbs.length)
    (hlen : spec.length ≤ 2)
    (hshape : spec_shape_ok spec = true)
    (hvr : ∀ e ∈ spec,
      (st.tree.getStr (connPath (toString mb_i) "rx" e)).isSome = true)
    (hvt : ∀ e ∈ spec,
      (st.tree.getStr (connPath (toString mb_i) "tx" e)).isSome = true) :
    (∀ e ∈ spec,
      io_event.ddc_set_mux mb_i ((st.mbs.getD mb_i default).get_radio_index e.db_name)
          ((st.tree.getStr (connPath (toString mb_i) "rx" e)).getD "")
          (((st.tree.getStr (connPath (toString mb_i) "rx" e)).getD "") == "QI"
            || ((st.tree.getStr (connPath (toString mb_i) "rx" e)).getD "") == "Q")
        ∈ (update_subdev_spec st "rx" mb_i spec).1.log ∧
      io_event.rx_fe_set_mux mb_i ((st.mbs.getD mb_i default).get_radio_index e.db_name)
          (((st.tree.getStr (connPath (toString mb_i) "rx" e)).getD "") == "QI"
            || ((st.tree.getStr (connPath (toString mb_i) "rx" e)).getD "") == "Q")
        ∈ (update_subdev_spec st "rx" mb_i spec).1.log) ∧
    (∀ e ∈ spec,
      io_event.tx_fe_set_mux mb_i ((st.mbs.getD mb_i default).get_radio_index e.db_name)
          ((st.tree.getStr (connPath (toString mb_i) "tx" e)).getD "")
        ∈ (update_subdev_spec st "tx" mb_i spec).1.log) := by
  have hs_rx := update_subdev_spec_success st "rx" mb_i spec (by decide) hmb hlen hshape hvr
  have hs_tx := update_subdev_spec_success st "tx" mb_i spec (by decide) hmb hlen hshape hvt
  obtain ⟨_, _, _, h4r, _⟩ := subdev_mux_loop_ok "rx" (toString mb_i) mb_i spec st hvr
  obtain ⟨_, _, _, h4t, _⟩ := subdev_mux_loop_ok "tx" (toString mb_i) mb_i spec st hvt
  constructor
  · intro e he
    obtain ⟨m1, m2⟩ := spec_mux_events_mem_rx (toString mb_i) mb_i st spec e he
    rw [hs_rx]
    simp only [x300_impl_state.persist_mapping]
    rw [h4r]
    exact ⟨List.mem_append_left _ (List.mem_append_right _ m1),
           List.mem_append_left _ (List.mem_append_right _ m2)⟩
  · intro e he
    have m := spec_mux_events_mem_tx (toString mb_i) mb_i st spec e he
    rw [hs_tx]
    simp only [x300_impl_state.persist_mapping]
    rw [h4t]
    exact List.mem_append_left _ (List.mem_append_right _ m)

/-- Witness for C3: on `subdevW` with spec `A:0 B:0`, daughterboard "B"
(radio 1, connection "QI") gets its DDC mux programmed with
`("QI", true)` and its RX front-end with `true`, while on the TX side
its TX front-end mux receives the raw "QI"; `fe_swapped` came out
`true` for "QI" and `false` for "IQ". -/
theorem update_subdev_spec_mux_programming_witness :
    (io_event.ddc_set_mux 0 1 "QI" true ∈ (update_subdev_spec subdevW "rx" 0 specAB).1.log ∧
     io_event.rx_fe_set_mux 0 1 true ∈ (update_subdev_spec subdevW "rx" 0 specAB).1.log) ∧
    io_event.rx_fe_set_mux 0 0 false ∈ (update_subdev_spec subdevW "rx" 0 specAB).1.log ∧
    io_event.tx_fe_set_mux 0 1 "QI" ∈ (update_subdev_spec subdevW "tx" 0 specAB).1.log :=
  ⟨(update_subdev_spec_mux_programming subdevW 0 specAB (by decide) (by decide)
      (by decide) (by decide) (by decide)).1 ⟨"B", "0"⟩ (by decide),
   ((update_subdev_spec_mux_programming subdevW 0 specAB (by decide) (by decide)
      (by decide) (by decide) (by decide)).1 ⟨"A", "0"⟩ (by decide)).2,
   (update_subdev_spec_mux_programming subdevW 0 specAB (by decide) (by decide)
      (by decide) (by decide) (by decide)).2 ⟨"B", "0"⟩ (by decide)⟩
